import Mathlib

/-!
Verification development for the DigitalEarthPacific scene-processing and
mosaic-composition pipeline.  Pixel-level operations of the Python source
are shallowly embedded: a floating-point cell is modelled by `FP`
(a finite rational, an infinity, or NaN — NaN is xarray's "null");
integer rasters use `Int` with explicit wrapping where the 16-bit cast
matters.  Rounding of finite float arithmetic is idealised as exact
rational arithmetic: the claims below concern null/NaN propagation,
division by zero, truncation to integers, thresholds and control flow,
none of which depend on the rounding of in-range finite results.
-/

/-- A floating-point value as xarray/numpy sees it: finite, ±∞, or NaN.
NaN is the null marker used throughout the pipeline. -/
inductive FP where
  | finite (q : ℚ)
  | posInf
  | negInf
  | nan
deriving DecidableEq, Repr

namespace FP

/-- IEEE addition, finite arithmetic idealised as exact. -/
def add : FP → FP → FP
  | finite a, finite b => finite (a + b)
  | finite _, posInf => posInf
  | finite _, negInf => negInf
  | posInf, finite _ => posInf
  | negInf, finite _ => negInf
  | posInf, posInf => posInf
  | negInf, negInf => negInf
  | posInf, negInf => nan
  | negInf, posInf => nan
  | _, _ => nan

/-- IEEE subtraction, finite arithmetic idealised as exact. -/
def sub : FP → FP → FP
  | finite a, finite b => finite (a - b)
  | finite _, posInf => negInf
  | finite _, negInf => posInf
  | posInf, finite _ => posInf
  | negInf, finite _ => negInf
  | posInf, negInf => posInf
  | negInf, posInf => negInf
  | posInf, posInf => nan
  | negInf, negInf => nan
  | _, _ => nan

/-- IEEE division restricted to what the pipeline exercises: a finite
numerator over a finite denominator.  Division by zero yields NaN when
the numerator is zero and a signed infinity otherwise (numpy emits a
warning, not an exception).  Our rationals carry no signed zero, so the
sign of `0/0` collapses to NaN as in IEEE. -/
def div : FP → FP → FP
  | finite a, finite b =>
      if b = 0 then
        if a = 0 then nan else if a > 0 then posInf else negInf
      else finite (a / b)
  | finite _, posInf => finite 0
  | finite _, negInf => finite 0
  | posInf, finite _ => posInf
  | negInf, finite _ => negInf
  | _, _ => nan

/-- `x.notnull()` in xarray: everything but NaN (infinities included). -/
def notnull : FP → Bool
  | nan => false
  | _ => true

/-- IEEE `<=` against a finite threshold, as a numpy boolean: any
comparison with NaN is `false`. -/
def le (x : FP) (c : ℚ) : Bool :=
  match x with
  | finite a => decide (a ≤ c)
  | posInf => false
  | negInf => true
  | nan => false

end FP

namespace Wofs

/-- `normalized_ratio` from wofs.py: `(band1 - band2) / (band1 + band2)`. -/
def normalized_ratio (band1 band2 : FP) : FP :=
  FP.div (FP.sub band1 band2) (FP.add band1 band2)

/-- One pixel of the Landsat band stack consumed by `wofs` (wofs.py turns
the band dimension into dataset variables with `to_dataset('band')`; only
these six reflectance bands are read by the classifier). -/
structure Pixel where
  blue : FP
  green : FP
  red : FP
  nir08 : FP
  swir16 : FP
  swir22 : FP

/-- `tm['ndi52'] = normalized_ratio(tm.swir16, tm.green)`. -/
def ndi52 (tm : Pixel) : FP := normalized_ratio tm.swir16 tm.green

/-- `tm['ndi43'] = normalized_ratio(tm.nir08, tm.red)`. -/
def ndi43 (tm : Pixel) : FP := normalized_ratio tm.nir08 tm.red

/-- `tm['ndi72'] = normalized_ratio(tm.swir22, tm.green)`. -/
def ndi72 (tm : Pixel) : FP := normalized_ratio tm.swir22 tm.green

/-- Node and leaf booleans of the decision tree, exactly as in wofs.py
(`dX` is the test at node X, `lX`/`rX` a left/right path, `wX` a water
leaf). -/
def d1 (tm : Pixel) : Bool := (ndi52 tm).le (-0.01)

/-- `l2 = d1 & (tm.blue <= 2083.5)`. -/
def l2 (tm : Pixel) : Bool := d1 tm && tm.blue.le 2083.5

/-- `d3 = tm.swir22 <= 323.5`. -/
def d3 (tm : Pixel) : Bool := tm.swir22.le 323.5

/-- `l3 = l2 & d3`. -/
def l3 (tm : Pixel) : Bool := l2 tm && d3 tm

/-- `w1 = l3 & (tm.ndi43 <= 0.61)`. -/
def w1 (tm : Pixel) : Bool := l3 tm && (ndi43 tm).le 0.61

/-- `r3 = l2 & ~d3`. -/
def r3 (tm : Pixel) : Bool := l2 tm && !d3 tm

/-- `d5 = tm.blue <= 1400.5`. -/
def d5 (tm : Pixel) : Bool := tm.blue.le 1400.5

/-- `d6 = tm.ndi72 <= -0.23`. -/
def d6 (tm : Pixel) : Bool := (ndi72 tm).le (-0.23)

/-- `d7 = tm.ndi43 <= 0.22`. -/
def d7 (tm : Pixel) : Bool := (ndi43 tm).le 0.22

/-- `w2 = r3 & d5 & d6 & d7`. -/
def w2 (tm : Pixel) : Bool := r3 tm && d5 tm && d6 tm && d7 tm

/-- `w3 = r3 & d5 & d6 & ~d7 & (tm.blue <= 473.0)`. -/
def w3 (tm : Pixel) : Bool :=
  r3 tm && d5 tm && d6 tm && !d7 tm && tm.blue.le 473.0

/-- `w4 = r3 & d5 & ~d6 & (tm.blue <= 379.0)`. -/
def w4 (tm : Pixel) : Bool := r3 tm && d5 tm && !d6 tm && tm.blue.le 379.0

/-- `w7 = r3 & ~d5 & (tm.ndi43 <= -0.01)`. -/
def w7 (tm : Pixel) : Bool := r3 tm && !d5 tm && (ndi43 tm).le (-0.01)

/-- `d11 = tm.ndi52 <= 0.23`. -/
def d11 (tm : Pixel) : Bool := (ndi52 tm).le 0.23

/-- `l13 = ~d1 & d11 & (tm.blue <= 334.5) & (tm.ndi43 <= 0.54)`. -/
def l13 (tm : Pixel) : Bool :=
  !d1 tm && d11 tm && tm.blue.le 334.5 && (ndi43 tm).le 0.54

/-- `d14 = tm.ndi52 <= -0.12`. -/
def d14 (tm : Pixel) : Bool := (ndi52 tm).le (-0.12)

/-- `w5 = l13 & d14`. -/
def w5 (tm : Pixel) : Bool := l13 tm && d14 tm

/-- `r14 = l13 & ~d14`. -/
def r14 (tm : Pixel) : Bool := l13 tm && !d14 tm

/-- `d15 = tm.red <= 364.5`. -/
def d15 (tm : Pixel) : Bool := tm.red.le 364.5

/-- `w6 = r14 & d15 & (tm.blue <= 129.5)`. -/
def w6 (tm : Pixel) : Bool := r14 tm && d15 tm && tm.blue.le 129.5

/-- `w8 = r14 & ~d15 & (tm.blue <= 300.5)`. -/
def w8 (tm : Pixel) : Bool := r14 tm && !d15 tm && tm.blue.le 300.5

/-- `w10 = ~d1 & ~d11 & (tm.ndi52 <= 0.32) & (tm.blue <= 249.5)
& (tm.ndi43 <= 0.45) & (tm.red <= 364.5) & (tm.blue <= 129.5)`. -/
def w10 (tm : Pixel) : Bool :=
  !d1 tm && !d11 tm && (ndi52 tm).le 0.32 && tm.blue.le 249.5 &&
    (ndi43 tm).le 0.45 && tm.red.le 364.5 && tm.blue.le 129.5

/-- `water = w1 | w2 | w3 | w4 | w5 | w6 | w7 | w8 | w10`. -/
def water (tm : Pixel) : Bool :=
  w1 tm || w2 tm || w3 tm || w4 tm || w5 tm || w6 tm || w7 tm || w8 tm ||
    w10 tm

/-- `wofs` from wofs.py: the water boolean, nulled wherever the red
reflectance is null (`water.where(tm.red.notnull(), float('nan'))`). -/
def wofs (tm : Pixel) : Option Bool :=
  if tm.red.notnull then some (water tm) else none

/-- The features the spec's frozen threshold table refers to: the three
derived band ratios and the raw blue, red and swir22 reflectances. -/
inductive Feature where
  | ndi52
  | ndi43
  | ndi72
  | blue
  | red
  | swir22
deriving DecidableEq, Repr

/-- One `(feature, comparator, threshold)` entry of the spec's threshold
table: `isLe = true` is the `feature <= threshold` branch, `isLe = false`
its complement (the negation of the numpy `<=`, so it is satisfied by
NaN features, matching `~` on the comparison result). -/
structure TreeNode where
  feature : Feature
  isLe : Bool
  threshold : ℚ

/-- Value of a table feature at a pixel. -/
def featureVal (tm : Pixel) : Feature → FP
  | .ndi52 => ndi52 tm
  | .ndi43 => ndi43 tm
  | .ndi72 => ndi72 tm
  | .blue => tm.blue
  | .red => tm.red
  | .swir22 => tm.swir22

/-- Evaluate one threshold-table entry at a pixel. -/
def evalNode (tm : Pixel) (n : TreeNode) : Bool :=
  if n.isLe then (featureVal tm n.feature).le n.threshold
  else !(featureVal tm n.feature).le n.threshold

/-- Modelled from the spec: the frozen threshold table, one row of
`(feature, comparator, threshold)` tuples per water leaf, each leaf a
root-to-leaf conjunction of the fixed binary tree. -/
def waterLeafTable : List (List TreeNode) :=
  [ [⟨.ndi52, true, -0.01⟩, ⟨.blue, true, 2083.5⟩, ⟨.swir22, true, 323.5⟩,
     ⟨.ndi43, true, 0.61⟩],
    [⟨.ndi52, true, -0.01⟩, ⟨.blue, true, 2083.5⟩, ⟨.swir22, false, 323.5⟩,
     ⟨.blue, true, 1400.5⟩, ⟨.ndi72, true, -0.23⟩, ⟨.ndi43, true, 0.22⟩],
    [⟨.ndi52, true, -0.01⟩, ⟨.blue, true, 2083.5⟩, ⟨.swir22, false, 323.5⟩,
     ⟨.blue, true, 1400.5⟩, ⟨.ndi72, true, -0.23⟩, ⟨.ndi43, false, 0.22⟩,
     ⟨.blue, true, 473.0⟩],
    [⟨.ndi52, true, -0.01⟩, ⟨.blue, true, 2083.5⟩, ⟨.swir22, false, 323.5⟩,
     ⟨.blue, true, 1400.5⟩, ⟨.ndi72, false, -0.23⟩, ⟨.blue, true, 379.0⟩],
    [⟨.ndi52, false, -0.01⟩, ⟨.ndi52, true, 0.23⟩, ⟨.blue, true, 334.5⟩,
     ⟨.ndi43, true, 0.54⟩, ⟨.ndi52, true, -0.12⟩],
    [⟨.ndi52, false, -0.01⟩, ⟨.ndi52, true, 0.23⟩, ⟨.blue, true, 334.5⟩,
     ⟨.ndi43, true, 0.54⟩, ⟨.ndi52, false, -0.12⟩, ⟨.red, true, 364.5⟩,
     ⟨.blue, true, 129.5⟩],
    [⟨.ndi52, true, -0.01⟩, ⟨.blue, true, 2083.5⟩, ⟨.swir22, false, 323.5⟩,
     ⟨.blue, false, 1400.5⟩, ⟨.ndi43, true, -0.01⟩],
    [⟨.ndi52, false, -0.01⟩, ⟨.ndi52, true, 0.23⟩, ⟨.blue, true, 334.5⟩,
     ⟨.ndi43, true, 0.54⟩, ⟨.ndi52, false, -0.12⟩, ⟨.red, false, 364.5⟩,
     ⟨.blue, true, 300.5⟩],
    [⟨.ndi52, false, -0.01⟩, ⟨.ndi52, false, 0.23⟩, ⟨.ndi52, true, 0.32⟩,
     ⟨.blue, true, 249.5⟩, ⟨.ndi43, true, 0.45⟩, ⟨.red, true, 364.5⟩,
     ⟨.blue, true, 129.5⟩] ]

/-- Modelled from the spec: a pixel is water when some leaf's full
conjunction of threshold tests holds. -/
def tableWater (tm : Pixel) : Bool :=
  waterLeafTable.any fun leaf => leaf.all fun n => evalNode tm n

end Wofs

/-- C1: for every pixel, `wofs` outputs the logical OR of the water-leaf
predicates of the frozen `(feature, comparator, threshold)` table over
ndi52, ndi43, ndi72 and the raw blue, red and swir22 reflectances, and
outputs null exactly where the input (red) reflectance is null. -/
theorem c1_wofs_matches_threshold_table (tm : Wofs.Pixel) :
    Wofs.wofs tm =
      if tm.red.notnull then some (Wofs.tableWater tm) else none := by
  have h : Wofs.water tm = Wofs.tableWater tm := by
    simp [Wofs.water, Wofs.tableWater, Wofs.waterLeafTable, Wofs.evalNode,
      Wofs.featureVal, Wofs.w1, Wofs.w2, Wofs.w3, Wofs.w4, Wofs.w5,
      Wofs.w6, Wofs.w7, Wofs.w8, Wofs.w10, Wofs.l3, Wofs.l2, Wofs.r3,
      Wofs.l13, Wofs.r14, Wofs.d1, Wofs.d3, Wofs.d5, Wofs.d6, Wofs.d7,
      Wofs.d11, Wofs.d14, Wofs.d15, Bool.and_assoc, Bool.or_assoc]
  rw [Wofs.wofs, h]

namespace LandsatBandFunctions

/-- `ndvi` from landsat_band_functions.py:
`np.divide(np.subtract(nir, red), np.add(nir, red))` on the "nir08" and
"red" bands. -/
def ndvi (nir red : FP) : FP :=
  FP.div (FP.sub nir red) (FP.add nir red)

end LandsatBandFunctions

namespace Utils

/-- Truncation toward zero: the conversion numpy's `astype("int16")`
applies to a finite float. -/
def ratTrunc (q : ℚ) : ℤ := if 0 ≤ q then ⌊q⌋ else ⌈q⌉

/-- Reduction of an out-of-range integer into the int16 range, the
(platform-typical) wrap-around of numpy's float-to-int16 cast.  The
claims below only evaluate it inside `[-32768, 32767]`, where it is the
identity. -/
def wrapInt16 (z : ℤ) : ℤ := (z + 32768) % 65536 - 32768

/-- `scale_to_int16` from utils.py at one pixel:
`np.multiply(da, output_multiplier).where(da.notnull(), output_nodata)
.astype("int16")` — the scaled value (or the nodata sentinel where the
input is null) truncated and cast to int16.  The `rio.write_nodata` /
`rio.write_crs` calls attach metadata and do not change pixel values. -/
def scale_to_int16 (da : Option ℚ) (output_multiplier : ℤ)
    (output_nodata : ℤ) : ℤ :=
  match da with
  | some v => wrapInt16 (ratTrunc (v * (output_multiplier : ℚ)))
  | none => wrapInt16 output_nodata

/-- Modelled from the spec: `stored = round(value * multiplier)`,
rounding to the nearest integer (halves up). -/
def spec_round (q : ℚ) : ℤ := ⌊q + 1 / 2⌋

/-- Truncation toward zero is within one of its argument. -/
theorem abs_sub_ratTrunc_lt_one (q : ℚ) : |q - (ratTrunc q : ℚ)| < 1 := by
  unfold ratTrunc
  split
  · rw [abs_lt]
    constructor <;> linarith [Int.lt_floor_add_one q, Int.floor_le q]
  · rw [abs_lt]
    constructor <;> linarith [Int.le_ceil q, Int.ceil_lt_add_one q]

end Utils

/-- C2, as stated, fails twice on the code.  First, the stored integer is
the truncation, not the rounding, of `v * multiplier`: at `v = 0.00015`
with multiplier 10000 the code stores 1 while `round(1.5) = 2`.  Second,
the sentinel −32767 lies inside the int16 range, so a valid in-range
input can quantize to it: `v = -3.27675` stores exactly −32767. -/
theorem c2_counterexample :
    Utils.scale_to_int16 (some (3 / 20000)) 10000 (-32767) = 1 ∧
    Utils.spec_round ((3 / 20000 : ℚ) * 10000) = 2 ∧
    Utils.scale_to_int16 (some (-65535 / 20000)) 10000 (-32767) = -32767 := by
  refine ⟨?_, ?_, ?_⟩
  · norm_num [Utils.scale_to_int16, Utils.ratTrunc, Utils.wrapInt16]
  · norm_num [Utils.spec_round]
  · have h : ⌈(-(65535 / 2) : ℚ)⌉ = -32767 := by
      rw [Int.ceil_eq_iff]
      constructor <;> norm_num
    norm_num [Utils.scale_to_int16, Utils.ratTrunc, Utils.wrapInt16, h]

/-- C2 amended: for a valid value whose truncated scaled product lies in
the int16 range, the stored integer is `trunc(v * multiplier)` (toward
zero, not rounded to nearest); dequantizing recovers `v` to within
`1/multiplier`; a null input stores exactly the nodata sentinel; and a
valid input produces the sentinel exactly when its truncated product
collides with it (the sentinel −32767 is inside the int16 range, so such
collisions are possible). -/
theorem c2_scale_to_int16 (v : ℚ) (m nd : ℤ) (hm : 0 < m)
    (hlo : -32768 ≤ Utils.ratTrunc (v * (m : ℚ)))
    (hhi : Utils.ratTrunc (v * (m : ℚ)) ≤ 32767) :
    Utils.scale_to_int16 (some v) m nd = Utils.ratTrunc (v * (m : ℚ)) ∧
    |v - (Utils.ratTrunc (v * (m : ℚ)) : ℚ) / (m : ℚ)| < 1 / (m : ℚ) ∧
    Utils.scale_to_int16 none m nd = Utils.wrapInt16 nd ∧
    (Utils.scale_to_int16 (some v) m nd = nd ↔
      Utils.ratTrunc (v * (m : ℚ)) = nd) := by
  have hid : Utils.wrapInt16 (Utils.ratTrunc (v * (m : ℚ))) =
      Utils.ratTrunc (v * (m : ℚ)) := by
    unfold Utils.wrapInt16
    rw [Int.emod_eq_of_lt (by omega) (by omega)]
    omega
  have hm' : (0 : ℚ) < (m : ℚ) := by exact_mod_cast hm
  refine ⟨by simp [Utils.scale_to_int16, hid], ?_, rfl,
    by simp [Utils.scale_to_int16, hid]⟩
  have h1 : |v * (m : ℚ) - (Utils.ratTrunc (v * (m : ℚ)) : ℚ)| < 1 :=
    Utils.abs_sub_ratTrunc_lt_one _
  have h2 : v - (Utils.ratTrunc (v * (m : ℚ)) : ℚ) / (m : ℚ) =
      (v * (m : ℚ) - (Utils.ratTrunc (v * (m : ℚ)) : ℚ)) / (m : ℚ) := by
    field_simp
  rw [h2, abs_div, abs_of_pos hm']
  exact (div_lt_div_iff_of_pos_right hm').mpr h1

/-- Instantiation of `c2_scale_to_int16` at `v = 1/2`, multiplier 10,
nodata −32767. -/
theorem c2_scale_to_int16_witness :
    (0 : ℤ) < 10 ∧
    (Utils.scale_to_int16 (some (1 / 2)) 10 (-32767) =
        Utils.ratTrunc ((1 / 2 : ℚ) * ((10 : ℤ) : ℚ)) ∧
      |(1 / 2 : ℚ) -
          (Utils.ratTrunc ((1 / 2 : ℚ) * ((10 : ℤ) : ℚ)) : ℚ) /
            ((10 : ℤ) : ℚ)| <
        1 / ((10 : ℤ) : ℚ) ∧
      Utils.scale_to_int16 none 10 (-32767) = Utils.wrapInt16 (-32767) ∧
      (Utils.scale_to_int16 (some (1 / 2)) 10 (-32767) = -32767 ↔
        Utils.ratTrunc ((1 / 2 : ℚ) * ((10 : ℤ) : ℚ)) = -32767)) :=
  ⟨by norm_num,
    c2_scale_to_int16 (1 / 2) 10 (-32767) (by norm_num)
      (by norm_num [Utils.ratTrunc]) (by norm_num [Utils.ratTrunc])⟩

/-- C6, as stated by the spec, fails: when the denominator band sum is
zero but the numerator is not, IEEE division returns a signed infinity,
which is not null.  Witnessed at `nir08 = 1`, `red = -1`. -/
theorem c6_counterexample :
    FP.add (FP.finite 1) (FP.finite (-1)) = FP.finite 0 ∧
    LandsatBandFunctions.ndvi (FP.finite 1) (FP.finite (-1)) = FP.posInf ∧
    Wofs.normalized_ratio (FP.finite 1) (FP.finite (-1)) = FP.posInf ∧
    FP.notnull FP.posInf = true := by
  refine ⟨?_, ?_, ?_, rfl⟩ <;>
    simp [LandsatBandFunctions.ndvi, Wofs.normalized_ratio,
      FP.div, FP.sub, FP.add]

/-- C6 amended: the index computations are total functions (no input
raises), and on a zero denominator sum the result is NaN (null) exactly
when the numerator difference is also zero; otherwise it is the signed
infinity matching the numerator's sign, which is not null. -/
theorem c6_div_by_zero (q₁ q₂ : ℚ) (h : q₁ + q₂ = 0) :
    LandsatBandFunctions.ndvi (FP.finite q₁) (FP.finite q₂) =
      (if q₁ - q₂ = 0 then FP.nan
       else if q₁ - q₂ > 0 then FP.posInf else FP.negInf) ∧
    Wofs.normalized_ratio (FP.finite q₁) (FP.finite q₂) =
      (if q₁ - q₂ = 0 then FP.nan
       else if q₁ - q₂ > 0 then FP.posInf else FP.negInf) := by
  constructor <;>
    simp [LandsatBandFunctions.ndvi, Wofs.normalized_ratio,
      FP.div, FP.sub, FP.add, h]

/-- Instantiation of `c6_div_by_zero` at `q₁ = 1`, `q₂ = -1`. -/
theorem c6_div_by_zero_witness :
    (1 : ℚ) + (-1) = 0 ∧
    (LandsatBandFunctions.ndvi (FP.finite 1) (FP.finite (-1)) =
      (if (1 : ℚ) - (-1) = 0 then FP.nan
       else if (1 : ℚ) - (-1) > 0 then FP.posInf else FP.negInf) ∧
    Wofs.normalized_ratio (FP.finite 1) (FP.finite (-1)) =
      (if (1 : ℚ) - (-1) = 0 then FP.nan
       else if (1 : ℚ) - (-1) > 0 then FP.posInf else FP.negInf)) :=
  ⟨by norm_num, c6_div_by_zero 1 (-1) (by norm_num)⟩

/-- A geographic bounding box `(minx, miny, maxx, maxy)`, longitudes and
latitudes in EPSG:4326 degrees. -/
structure Bbox where
  minx : ℚ
  miny : ℚ
  maxx : ℚ
  maxy : ℚ
deriving DecidableEq, Repr

namespace LandsatUtils

/-- The antimeridian adjustment inside `get_bbox` (landsat_utils.py):
when `bbox[0] < 0 and bbox[2] > 0`, both longitude bounds are
overwritten with the near-global constants ±179.9999999999. -/
def fixAntimeridian (b : Bbox) : Bbox :=
  if b.minx < 0 ∧ b.maxx > 0 then
    { b with minx := -179.9999999999, maxx := 179.9999999999 }
  else b

/-- `get_bbox` from landsat_utils.py: the bounds of the first row of the
GeoDataFrame (`bounds.values[0]`), antimeridian-adjusted.  Rows are
modelled by their per-row bounds already reprojected to EPSG:4326
(`to_crs` is the external geopandas collaborator); an empty frame would
raise IndexError, modelled as `none`. -/
def get_bbox (gpdf : List Bbox) : Option Bbox :=
  gpdf.head?.map fixAntimeridian

end LandsatUtils

namespace Evi

/-- The antimeridian adjustment inside `get_bbox` (evi.py): when
`bbox[0] < 0 and bbox[2] > 0`, the eastern bound is clamped to the
original western bound (`bbox[2] = bbox[0]`) and the western bound is
set to −179.999999999999, keeping the box inside the western
hemisphere. -/
def fixAntimeridian (b : Bbox) : Bbox :=
  if b.minx < 0 ∧ b.maxx > 0 then
    { b with minx := -179.999999999999, maxx := b.minx }
  else b

/-- `get_bbox` from evi.py: first-row bounds, antimeridian-adjusted. -/
def get_bbox (gpdf : List Bbox) : Option Bbox :=
  gpdf.head?.map fixAntimeridian

end Evi

/-- Bounds of the union of all rows' geometries (what geopandas
`total_bounds` would return): the componentwise min/max envelope over
every row.  Contrast definition for C10 — `get_bbox` does not compute
this. -/
def totalBounds : List Bbox → Option Bbox
  | [] => none
  | b :: rest =>
      some (rest.foldl
        (fun acc r =>
          ⟨min acc.minx r.minx, min acc.miny r.miny,
            max acc.maxx r.maxx, max acc.maxy r.maxy⟩)
        b)

/-- C3, as stated, fails on `get_bbox` from landsat_utils.py: the
antimeridian-crossing box `[-170, 0, 170, 10]` is widened to the
essentially global longitude range ±179.9999999999 (359.99…° wide,
containing the whole non-crossing hemisphere) instead of being clamped
or split. -/
theorem c3_counterexample :
    LandsatUtils.get_bbox [⟨-170, 0, 170, 10⟩] =
      some ⟨-179.9999999999, 0, 179.9999999999, 10⟩ ∧
    (179.9999999999 : ℚ) - -179.9999999999 > 359 := by
  constructor
  · simp [LandsatUtils.get_bbox, LandsatUtils.fixAntimeridian]
  · norm_num

/-- C3 amended: on an antimeridian-crossing extent the two `get_bbox`
variants disagree.  The evi.py variant clamps to the western hemisphere,
returning `[-179.999999999999, miny, minx, maxy]` and so excluding the
bulk of the non-crossing hemisphere; the landsat_utils.py variant
instead widens the box to the near-global longitude range
`[-179.9999999999, 179.9999999999]`. -/
theorem c3_get_bbox_antimeridian (b : Bbox) (rest : List Bbox)
    (h1 : b.minx < 0) (h2 : b.maxx > 0) :
    LandsatUtils.get_bbox (b :: rest) =
      some ⟨-179.9999999999, b.miny, 179.9999999999, b.maxy⟩ ∧
    Evi.get_bbox (b :: rest) =
      some ⟨-179.999999999999, b.miny, b.minx, b.maxy⟩ := by
  constructor <;>
    simp [LandsatUtils.get_bbox, Evi.get_bbox,
      LandsatUtils.fixAntimeridian, Evi.fixAntimeridian, h1, h2]

/-- Instantiation of `c3_get_bbox_antimeridian` at `[-170, 0, 170, 10]`. -/
theorem c3_get_bbox_antimeridian_witness :
    ((-170 : ℚ) < 0 ∧ (170 : ℚ) > 0) ∧
    (LandsatUtils.get_bbox [⟨-170, 0, 170, 10⟩] =
        some ⟨-179.9999999999, 0, 179.9999999999, 10⟩ ∧
      Evi.get_bbox [⟨-170, 0, 170, 10⟩] =
        some ⟨-179.999999999999, 0, -170, 10⟩) :=
  ⟨⟨by norm_num, by norm_num⟩,
    c3_get_bbox_antimeridian ⟨-170, 0, 170, 10⟩ [] (by norm_num)
      (by norm_num)⟩

/-- C10: both `get_bbox` variants read only the first row of the
GeoDataFrame — rows after the first never change the result — and
consequently the result is not the union envelope: on the two-row frame
`[(0,0,1,1), (2,2,3,3)]`, `get_bbox` returns the first row's box
`(0,0,1,1)` while the union bounds are `(0,0,3,3)`. -/
theorem c10_get_bbox_first_row_only (b : Bbox) (rest rest' : List Bbox) :
    (LandsatUtils.get_bbox (b :: rest) = LandsatUtils.get_bbox (b :: rest') ∧
      Evi.get_bbox (b :: rest) = Evi.get_bbox (b :: rest')) ∧
    LandsatUtils.get_bbox [⟨0, 0, 1, 1⟩, ⟨2, 2, 3, 3⟩] =
      some ⟨0, 0, 1, 1⟩ ∧
    Evi.get_bbox [⟨0, 0, 1, 1⟩, ⟨2, 2, 3, 3⟩] = some ⟨0, 0, 1, 1⟩ ∧
    totalBounds [⟨0, 0, 1, 1⟩, ⟨2, 2, 3, 3⟩] = some ⟨0, 0, 3, 3⟩ ∧
    (⟨0, 0, 1, 1⟩ : Bbox) ≠ ⟨0, 0, 3, 3⟩ := by
  refine ⟨⟨rfl, rfl⟩, ?_, ?_, ?_, ?_⟩
  · simp [LandsatUtils.get_bbox, LandsatUtils.fixAntimeridian]
  · simp [Evi.get_bbox, Evi.fixAntimeridian]
  · simp [totalBounds]
  · decide

/-- One pixel column of the multi-band image stack as the cloud maskers
see it: `qa` is the pixel's QA-band value after the `astype("uint16")`
cast, `bands` the per-band reflectance values of the same pixel (null =
NaN = `none`), indexed by an arbitrary band-name type `ι`. -/
structure StackPixel (ι : Type) where
  qa : ℕ
  bands : ι → Option ℚ

namespace LandsatUtils

/-- `mask_bitfields = [1, 2, 3, 4]` — dilated cloud, cirrus, cloud,
cloud shadow (landsat_utils.py). -/
def mask_bitfields : List ℕ := [1, 2, 3, 4]

/-- `bitmask |= 1 << field` folded over `mask_bitfields`
(landsat_utils.py). -/
def bitmask : ℕ :=
  mask_bitfields.foldl (fun acc field => acc ||| (1 <<< field)) 0

/-- `mask_clouds` from landsat_utils.py at one pixel:
`bad = qa & bitmask; return xr.where(bad == 0)` — every band of the
stack (the QA band included) is nulled where any masked bit is set, and
kept unchanged otherwise. -/
def mask_clouds {ι : Type} (p : StackPixel ι) : StackPixel ι :=
  if p.qa &&& bitmask = 0 then p else { p with bands := fun _ => none }

end LandsatUtils

namespace Evi

/-- `mask_bitfields = [1, 2, 3, 4]` (evi.py copy). -/
def mask_bitfields : List ℕ := [1, 2, 3, 4]

/-- `bitmask |= 1 << field` folded over `mask_bitfields` (evi.py copy). -/
def bitmask : ℕ :=
  mask_bitfields.foldl (fun acc field => acc ||| (1 <<< field)) 0

/-- `mask_landsat_clouds` from evi.py at one pixel — the duplicated
variant of `mask_clouds`. -/
def mask_landsat_clouds {ι : Type} (p : StackPixel ι) : StackPixel ι :=
  if p.qa &&& bitmask = 0 then p else { p with bands := fun _ => none }

end Evi

/-- C4, as stated, fails in the "only if" direction: a pixel whose band
value is already null stays null in the output even though its QA value
ANDed with the bitmask is zero. -/
theorem c4_counterexample :
    (LandsatUtils.mask_clouds
        (⟨0, fun _ => none⟩ : StackPixel Unit)).bands () = none ∧
    0 &&& LandsatUtils.bitmask = 0 := by
  constructor
  · simp [LandsatUtils.mask_clouds]
  · decide

/-- C4 amended: a band value of the masked pixel is null iff the QA
value ANDed with the configured bitmask (bits 1–4: dilated cloud,
cirrus, cloud, cloud shadow, so the mask is 2¹+2²+2³+2⁴ = 30) is
nonzero — in which case every band of the stack is nulled, not just the
QA band — or the input value was already null. -/
theorem c4_mask_clouds {ι : Type} (p : StackPixel ι) (b : ι) :
    ((LandsatUtils.mask_clouds p).bands b = none ↔
      p.qa &&& LandsatUtils.bitmask ≠ 0 ∨ p.bands b = none) ∧
    LandsatUtils.bitmask = 2 ^ 1 + 2 ^ 2 + 2 ^ 3 + 2 ^ 4 := by
  refine ⟨?_, by decide⟩
  unfold LandsatUtils.mask_clouds
  by_cases h : p.qa &&& LandsatUtils.bitmask = 0 <;> simp [h]

/-- C9: the duplicated cloud maskers in landsat_utils.py and evi.py are
extensionally equal — same bitmask over bits 1–4 of the QA band, same
nulled pixels, for every input pixel. -/
theorem c9_mask_variants_agree {ι : Type} (p : StackPixel ι) :
    LandsatUtils.mask_clouds p = Evi.mask_landsat_clouds p := rfl

namespace FractionalCover

/-- The six reflectance bands selected and renamed for the
fractional-cover model input
(`[['red','blue','green','nir08','swir16','swir22']]` renamed to
`red, blue, green, nir, swir1, swir2`). -/
inductive FcBand where
  | red
  | blue
  | green
  | nir
  | swir1
  | swir2
deriving DecidableEq, Repr

/-- The `.where(lambda x: x > 0)` step of `fc_by_scene`
(fractional_cover.py) at one pixel of the single selected time slice.
xarray applies the condition per data variable: each band keeps its
value where that band's own value is positive, and becomes null (NaN)
where it is non-positive or already null. -/
def positive_filter (input_ds : FcBand → Option ℚ) : FcBand → Option ℚ :=
  fun b =>
    match input_ds b with
    | none => none
    | some v => if v > 0 then some v else none

end FractionalCover

/-- C7, as stated, fails: the non-positive screen is per band, not per
pixel.  A pixel with red = −1 but blue = 2 keeps its blue value in the
model input; only its red value is nulled. -/
theorem c7_counterexample :
    FractionalCover.positive_filter
        (fun b => if b = FractionalCover.FcBand.red then some (-1) else some 2)
        FractionalCover.FcBand.blue = some 2 ∧
    FractionalCover.positive_filter
        (fun b => if b = FractionalCover.FcBand.red then some (-1) else some 2)
        FractionalCover.FcBand.red = none := by
  constructor <;> decide

/-- C7 amended: before the fractional-cover model runs, each band is
independently nulled where that band's own reflectance is non-positive
(or already null); a surviving value is exactly a positive input value
of the same band, so a pixel that is non-positive in one band keeps its
positive values in the other bands. -/
theorem c7_positive_filter (p : FractionalCover.FcBand → Option ℚ)
    (b : FractionalCover.FcBand) (v : ℚ) :
    (FractionalCover.positive_filter p b = some v ↔
      p b = some v ∧ 0 < v) ∧
    (FractionalCover.positive_filter p b = none ↔
      p b = none ∨ ∃ u, p b = some u ∧ u ≤ 0) := by
  cases h : p b with
  | none => simp [FractionalCover.positive_filter, h]
  | some a =>
      by_cases ha : a > 0
      · simp [FractionalCover.positive_filter, h, ha]
        intro hv
        exact hv ▸ ha
      · simp [FractionalCover.positive_filter, h, ha]
        exact ⟨fun hv => hv ▸ le_of_not_lt ha, le_of_not_lt ha⟩

namespace Utils

/-- Default value of the `overwrite` parameter of `mosaic_files`
(utils.py): `True`. -/
def overwriteDefault : Bool := true

/-- `mosaic_files` from utils.py, modelled by its effect on the local
mosaic file.  `mosaic` is the file's state before the call (`none` =
absent); when `not Path(mosaic_file).is_file() or overwrite` holds, the
VRT is built and materialised over the file (and the scale factor
re-applied), producing `built`; otherwise nothing is touched. -/
def mosaic_files {α : Type} (mosaic : Option α) (built : α)
    (overwrite : Bool) : Option α :=
  if mosaic.isNone || overwrite then some built else mosaic

end Utils

/-- C8, as stated, fails: `overwrite` defaults to `True`, so a caller
that does not ask for an overwrite (i.e. leaves the default, as
wofs.py, evi.py and fractional_cover.py all do) still rebuilds an
existing mosaic file — here an existing mosaic `0` is replaced by the
fresh build `1`. -/
theorem c8_counterexample :
    Utils.mosaic_files (some (0 : ℕ)) 1 Utils.overwriteDefault = some 1 ∧
    some (0 : ℕ) ≠ some 1 := by
  constructor
  · rfl
  · decide

/-- C8 amended: the build (VRT construction, materialisation,
scale-factor update) is skipped and the existing file left unchanged iff
the mosaic file exists and the caller explicitly passes
`overwrite=False`; a missing file is always built, and since the
parameter defaults to `True`, an existing mosaic is rebuilt unless
overwriting is explicitly declined. -/
theorem c8_mosaic_files {α : Type} (c built : α) (o : Bool) :
    Utils.mosaic_files (some c) built false = some c ∧
    Utils.mosaic_files none built o = some built ∧
    Utils.mosaic_files (some c) built true = some built ∧
    Utils.overwriteDefault = true := by
  refine ⟨rfl, ?_, rfl, rfl⟩
  simp [Utils.mosaic_files]

namespace LandsatUtils

/-- Number of decimal digits of `n`: the length of Python's `str(n)`
(`log₁₀ n + 1`, also for `n = 0`). -/
def numDigits (n : ℕ) : ℕ := Nat.log 10 n + 1

/-- The per-item EPSG repair of `fix_bad_epsgs` (landsat_utils.py):
`int(f"{epsg[0:3]}{int(epsg[3:]):02d}")` — the first three decimal
digits of the reported code, concatenated with the remaining digits
parsed as an integer and re-printed with minimum width 2.  For a code of
fewer than four digits `int('')` raises ValueError, modelled as `none`. -/
def fixEpsg (n : ℕ) : Option ℕ :=
  if numDigits n < 4 then none
  else
    some (n / 10 ^ (numDigits n - 3) *
      10 ^ max 2 (numDigits (n % 10 ^ (numDigits n - 3))) +
      n % 10 ^ (numDigits n - 3))

/-- `fix_bad_epsgs` from landsat_utils.py over an item collection: the
repair applied to each scene's `proj:epsg` property (the Python loop
mutates in place; a ValueError on any item is modelled as `none`). -/
def fix_bad_epsgs : List ℕ → Option (List ℕ)
  | [] => some []
  | n :: rest =>
      match fixEpsg n, fix_bad_epsgs rest with
      | some m, some rest2 => some (m :: rest2)
      | _, _ => none

/-- A code of the shape `p * 10^E + s` with a three-digit `p`,
`s < 10^E` and `E = max 2 (numDigits s)` — exactly the shape `fixEpsg`
produces — is a fixed point of `fixEpsg`. -/
theorem fixEpsg_concat (p s E : ℕ) (hp_lo : 100 ≤ p) (hp_hi : p < 1000)
    (hsE : s < 10 ^ E) (hEeq : E = max 2 (numDigits s)) :
    fixEpsg (p * 10 ^ E + s) = some (p * 10 ^ E + s) := by
  have hE2 : 2 ≤ E := hEeq ▸ le_max_left _ _
  have hpowE : (0 : ℕ) < 10 ^ E := pow_pos (by norm_num) E
  have hm_lo : 10 ^ (E + 2) ≤ p * 10 ^ E + s := by
    calc (10 : ℕ) ^ (E + 2) = 100 * 10 ^ E := by ring
      _ ≤ p * 10 ^ E := mul_le_mul_right' hp_lo _
      _ ≤ p * 10 ^ E + s := Nat.le_add_right _ _
  have hm_hi : p * 10 ^ E + s < 10 ^ (E + 3) := by
    calc p * 10 ^ E + s < p * 10 ^ E + 10 ^ E :=
          Nat.add_lt_add_left hsE _
      _ = (p + 1) * 10 ^ E := by ring
      _ ≤ 1000 * 10 ^ E := mul_le_mul_right' (by omega) _
      _ = 10 ^ (E + 3) := by ring
  have hdm : numDigits (p * 10 ^ E + s) = E + 3 := by
    unfold numDigits
    rw [Nat.log_eq_of_pow_le_of_lt_pow hm_lo hm_hi]
  have hq : p * 10 ^ E + s = s + 10 ^ E * p := by ring
  have hdiv : (p * 10 ^ E + s) / 10 ^ E = p := by
    rw [hq, Nat.add_mul_div_left _ _ hpowE, Nat.div_eq_of_lt hsE,
      Nat.zero_add]
  have hmod : (p * 10 ^ E + s) % 10 ^ E = s := by
    rw [hq, Nat.add_mul_mod_self_left, Nat.mod_eq_of_lt hsE]
  unfold fixEpsg
  rw [if_neg (by rw [hdm]; omega)]
  simp only [hdm, show E + 3 - 3 = E from by omega, hmod, hdiv]
  rw [← hEeq]

/-- The repair succeeds on every code of at least four digits and its
result is a fixed point: applying it again changes nothing. -/
theorem fixEpsg_idem (n : ℕ) (hn : 1000 ≤ n) :
    ∃ m, fixEpsg n = some m ∧ fixEpsg m = some m := by
  have hn0 : n ≠ 0 := by omega
  have hlog3 : 3 ≤ Nat.log 10 n :=
    (Nat.pow_le_iff_le_log (by norm_num) hn0).mp
      ((by norm_num : (10 : ℕ) ^ 3 = 1000) ▸ hn)
  have hd4 : ¬numDigits n < 4 := by unfold numDigits; omega
  have hpow : (0 : ℕ) < 10 ^ (numDigits n - 3) := pow_pos (by norm_num) _
  have hne1 : 10 ^ (numDigits n - 3 + 2) ≤ n := by
    have h1 := Nat.pow_log_le_self 10 hn0
    have h2 : numDigits n - 3 + 2 = Nat.log 10 n := by
      unfold numDigits
      omega
    rwa [h2]
  have hne2 : n < 10 ^ (numDigits n - 3 + 3) := by
    have h1 := Nat.lt_pow_succ_log_self (b := 10) (by norm_num) n
    have h2 : numDigits n - 3 + 3 = Nat.log 10 n + 1 := by
      unfold numDigits
      omega
    rw [h2]
    exact h1
  have hp_lo : 100 ≤ n / 10 ^ (numDigits n - 3) := by
    rw [Nat.le_div_iff_mul_le hpow]
    calc (100 : ℕ) * 10 ^ (numDigits n - 3) =
          10 ^ (numDigits n - 3 + 2) := by ring
      _ ≤ n := hne1
  have hp_hi : n / 10 ^ (numDigits n - 3) < 1000 := by
    rw [Nat.div_lt_iff_lt_mul hpow]
    calc n < 10 ^ (numDigits n - 3 + 3) := hne2
      _ = 1000 * 10 ^ (numDigits n - 3) := by ring
  have hsE : n % 10 ^ (numDigits n - 3) <
      10 ^ max 2 (numDigits (n % 10 ^ (numDigits n - 3))) := by
    have h1 : n % 10 ^ (numDigits n - 3) <
        10 ^ numDigits (n % 10 ^ (numDigits n - 3)) := by
      unfold numDigits
      exact Nat.lt_pow_succ_log_self (by norm_num) _
    exact h1.trans_le (Nat.pow_le_pow_right (by norm_num)
      (le_max_right _ _))
  refine ⟨_, ?_, fixEpsg_concat _ _ _ hp_lo hp_hi hsE rfl⟩
  unfold fixEpsg
  rw [if_neg hd4]

end LandsatUtils

/-- C5: on every item collection of well-formed (≥ 4 digit) reported
EPSG codes the repair succeeds, and applying `fix_bad_epsgs` twice
leaves every scene's coordinate-system identifier equal to the result of
applying it once — the fix never double-corrects. -/
theorem c5_fix_bad_epsgs_idempotent (items : List ℕ)
    (hv : ∀ n ∈ items, 1000 ≤ n) :
    ∃ fixedItems, LandsatUtils.fix_bad_epsgs items = some fixedItems ∧
      LandsatUtils.fix_bad_epsgs fixedItems = some fixedItems := by
  induction items with
  | nil => exact ⟨[], rfl, rfl⟩
  | cons n rest ih =>
      obtain ⟨m, h1, h2⟩ := LandsatUtils.fixEpsg_idem n (hv n (by simp))
      obtain ⟨rest2, h3, h4⟩ := ih fun x hx => hv x (by simp [hx])
      exact ⟨m :: rest2,
        by simp [LandsatUtils.fix_bad_epsgs, h1, h3],
        by simp [LandsatUtils.fix_bad_epsgs, h2, h4]⟩

/-- Instantiation of `c5_fix_bad_epsgs_idempotent` on the collection
`[3271, 32760]` (a truncated code from the upstream defect next to an
already-correct UTM code). -/
theorem c5_fix_bad_epsgs_idempotent_witness :
    (∀ n ∈ [3271, 32760], 1000 ≤ n) ∧
    ∃ fixedItems,
      LandsatUtils.fix_bad_epsgs [3271, 32760] = some fixedItems ∧
        LandsatUtils.fix_bad_epsgs fixedItems = some fixedItems :=
  ⟨by decide, c5_fix_bad_epsgs_idempotent [3271, 32760] (by decide)⟩
